import Mathlib

/-!
Shallow embedding of the Odoo-TopTex proxy (`main.py`) and proofs about its
authentication cache, retry wrapper, webhook verification and health check.

Modelling conventions:
* wall-clock time is a natural number of seconds (`datetime.now()` becomes a
  `now : Nat` parameter; `timedelta(hours=24)` becomes `86400`);
* Python exceptions become an explicit `PyExc` value threaded through
  `Except`; `requests.exceptions.RequestException` and FastAPI's
  `HTTPException` are distinct constructors because `retry_with_backoff`
  catches only the former;
* the network is an oracle supplied per call: an `AuthResponse` for the
  authentication endpoint and a `CallOutcome` for a data endpoint;
* each modelled operation also reports how many authentication-endpoint
  network calls and upstream data requests it issued, and the list of
  `time.sleep` durations it performed, so that claims about attempt counts
  and backoff schedules are statable.
-/

namespace Toptex

/-- Python exception classes relevant to the control flow of `main.py`:
`requests.exceptions.RequestException` (including `HTTPError` raised by
`raise_for_status`), FastAPI's `HTTPException` (status code plus detail), and
a catch-all for any other exception. -/
inductive PyExc where
  | requestException (detail : String)
  | httpException (status : Nat) (detail : String)
  | otherError (detail : String)
deriving Repr, DecidableEq

/-- Whether an exception is caught by `except requests.exceptions.RequestException`. -/
def is_request_exception : PyExc → Bool
  | PyExc.requestException _ => true
  | _ => false

/-- The mutable state of `AuthenticationManager` (main.py:27-29): `self.token`
and `self.token_expiry`, both initially `None`. Expiry is an absolute time in
seconds. -/
structure AuthState where
  token : Option String
  token_expiry : Option Nat
deriving Repr, DecidableEq

/-- Embeds `AuthenticationManager.__init__` (main.py:27-29). -/
def initial_auth_state : AuthState := { token := none, token_expiry := none }

/-- Embeds `AuthenticationManager.is_token_valid` (main.py:31-35): False when either
field is `None`, otherwise `datetime.now() < self.token_expiry` (strict). -/
def is_token_valid (s : AuthState) (now : Nat) : Bool :=
  match s.token, s.token_expiry with
  | none, _ => false
  | _, none => false
  | some _, some e => now < e

/-- Outcome of the one `requests.post` to `{base}/authenticate` inside
`AuthenticationManager.authenticate` (main.py:41-47): either a
`RequestException` is raised somewhere in the `try` block before the token is
stored (network failure, timeout, or non-2xx via `raise_for_status`), or a
2xx JSON body arrives and `data.get("token")` yields `tok` (which is `none`
when the key is absent). -/
inductive AuthResponse where
  | failure (detail : String)
  | success (tok : Option String)
deriving Repr, DecidableEq

/-- Embeds `AuthenticationManager.authenticate` (main.py:37-57). Returns the result
(`self.token` or the raised `HTTPException(503)`), the new state, and the
number of authentication-endpoint network calls made (always exactly one). On
failure the state is returned untouched; on success both fields are
overwritten: `self.token = data.get("token")` and
`self.token_expiry = datetime.now() + timedelta(hours=24)`. -/
def authenticate (s : AuthState) (now : Nat) (resp : AuthResponse) :
    Except PyExc (Option String) × AuthState × Nat :=
  match resp with
  | AuthResponse.failure d =>
      (Except.error (PyExc.httpException 503 ("Authentication failed: " ++ d)), s, 1)
  | AuthResponse.success tok =>
      (Except.ok tok, { token := tok, token_expiry := some (now + 86400) }, 1)

/-- Embeds `AuthenticationManager.get_token` (main.py:59-63): authenticate when the
cached token is missing or expired, otherwise return `self.token` with no
network call. -/
def get_token (s : AuthState) (now : Nat) (resp : AuthResponse) :
    Except PyExc (Option String) × AuthState × Nat :=
  if !(is_token_valid s now) then authenticate s now resp
  else (Except.ok s.token, s, 0)

/-- A sequence of `get_token` calls on the shared manager state, each at its
own time and with its own authentication-endpoint oracle. Returns the list of
per-call results, the final state, and the total number of
authentication-endpoint network calls. -/
def run_get_tokens (s : AuthState) : List (Nat × AuthResponse) →
    List (Except PyExc (Option String)) × AuthState × Nat
  | [] => ([], s, 0)
  | c :: rest =>
    let g := get_token s c.1 c.2
    let r := run_get_tokens g.2.1 rest
    (g.1 :: r.1, r.2.1, g.2.2 + r.2.2)

/-- The loop body of the `wrapper` closure produced by `retry_with_backoff`
(main.py:107-116), with the remaining iterations of
`for attempt in range(max_retries)` as explicit fuel. `f attempt` is the
result of `func(*args, **kwargs)` on that attempt. Returns `some` result when
the loop returns or re-raises (`none` only when the loop range is exhausted,
in which case Python falls through and returns `None`), the number of
attempts made, and the list of `time.sleep` durations
`backoff_factor * 2 ** attempt` performed between attempts. An exception
that is not a `RequestException` propagates uncaught. -/
def retry_loop {α : Type} (f : Nat → Except PyExc α) (max_retries backoff_factor : Nat) :
    Nat → Nat → Option (Except PyExc α) × Nat × List Nat
  | 0, _attempt => (none, 0, [])
  | fuel + 1, attempt =>
    match f attempt with
    | Except.ok a => (some (Except.ok a), 1, [])
    | Except.error e =>
      if is_request_exception e then
        if attempt = max_retries - 1 then (some (Except.error e), 1, [])
        else
          let wait := backoff_factor * 2 ^ attempt
          let r := retry_loop f max_retries backoff_factor fuel (attempt + 1)
          (r.1, r.2.1 + 1, wait :: r.2.2)
      else (some (Except.error e), 1, [])

/-- Embeds `retry_with_backoff(max_retries, backoff_factor)` applied to a callable
(main.py:103-118); the decorator's defaults are `max_retries=3,
backoff_factor=1` and every endpoint uses them (`@retry_with_backoff()`). -/
def retry_with_backoff {α : Type} (max_retries backoff_factor : Nat)
    (f : Nat → Except PyExc α) : Option (Except PyExc α) × Nat × List Nat :=
  retry_loop f max_retries backoff_factor max_retries 0

/-- Outcome of one upstream data request (`requests.get/post/put/delete`):
either a `RequestException` is raised in transit (connection error, timeout,
DNS failure), or a response arrives with an HTTP status code and a body.
`raise_for_status` then raises `HTTPError` — a `RequestException` — exactly
when `400 ≤ code ≤ 599`. -/
inductive CallOutcome where
  | transportError (detail : String)
  | httpStatus (code : Nat) (body : String)
deriving Repr, DecidableEq

/-- Body of the `get_products` handler (main.py:142-155): obtain headers via
`get_toptex_headers()` (main.py:120-126), which calls
`auth_manager.get_token()`; then issue the upstream request and
`raise_for_status()`. The `except requests.exceptions.RequestException`
clause converts any such exception into `HTTPException(503, "TopTex API
error: ...")`; the `HTTPException(503)` raised by a failed `get_token`
is NOT a `RequestException` and propagates out of the handler uncaught.
Returns the result, the new auth state, the number of authentication-endpoint
network calls, and the number of upstream data requests issued. -/
def get_products_body (s : AuthState) (now : Nat) (aresp : AuthResponse)
    (out : CallOutcome) : Except PyExc String × AuthState × Nat × Nat :=
  let g := get_token s now aresp
  match g.1 with
  | Except.error (PyExc.requestException d) =>
      (Except.error (PyExc.httpException 503 ("TopTex API error: " ++ d)), g.2.1, g.2.2, 0)
  | Except.error (PyExc.httpException st d) =>
      (Except.error (PyExc.httpException st d), g.2.1, g.2.2, 0)
  | Except.error (PyExc.otherError d) =>
      (Except.error (PyExc.otherError d), g.2.1, g.2.2, 0)
  | Except.ok _tok =>
    match out with
    | CallOutcome.transportError d =>
        (Except.error (PyExc.httpException 503 ("TopTex API error: " ++ d)), g.2.1, g.2.2, 1)
    | CallOutcome.httpStatus code body =>
        if 400 ≤ code ∧ code ≤ 599 then
          (Except.error (PyExc.httpException 503 ("TopTex API error: status " ++ toString code)),
           g.2.1, g.2.2, 1)
        else (Except.ok body, g.2.1, g.2.2, 1)

/-- Observable trace of one client call to a proxied endpoint. -/
structure Trace where
  result : Except PyExc String
  auth_calls : Nat
  upstream_requests : Nat
  sleeps : List Nat

/-- One client call to `GET /products` as actually served (main.py:138-155):
`retry_with_backoff()` wraps the `async def` handler, so each wrapper attempt
evaluates `func(*args, **kwargs)`, which for an async function merely
CONSTRUCTS the coroutine and cannot raise; the wrapper therefore resolves on
its first attempt and returns the coroutine, which the framework then awaits,
running the handler body exactly once. Exceptions raised inside the body
surface only at that await, outside the wrapper's `try`. The oracles
`aresp`/`out` give the network behaviour each attempt would see. -/
def callGetProducts (s : AuthState) (now : Nat) (aresp : Nat → AuthResponse)
    (out : Nat → CallOutcome) : Trace × AuthState :=
  match retry_with_backoff 3 1 (fun attempt => (Except.ok attempt : Except PyExc Nat)) with
  | (some (Except.ok a), _n, sleeps) =>
    let b := get_products_body s now (aresp a) (out a)
    ({ result := b.1, auth_calls := b.2.2.1, upstream_requests := b.2.2.2, sleeps := sleeps },
     b.2.1)
  | (some (Except.error e), _n, sleeps) =>
    ({ result := Except.error e, auth_calls := 0, upstream_requests := 0, sleeps := sleeps }, s)
  | (none, _n, sleeps) =>
    ({ result := Except.error (PyExc.otherError "awaited None"), auth_calls := 0,
       upstream_requests := 0, sleeps := sleeps }, s)

/-- Status code of a result that is a raised `HTTPException`. -/
def result_status : Except PyExc String → Option Nat
  | Except.error (PyExc.httpException st _) => some st
  | _ => none

/-- Embeds `verify_webhook_secret` (main.py:128-132): when `WEBHOOK_SECRET` is set
and truthy (a non-empty string), the `x-odoo-signature` header must equal it
or `HTTPException(401)` is raised; otherwise no check. -/
def verify_webhook_secret (webhook_secret : Option String) (signature : Option String) :
    Except PyExc Unit :=
  match webhook_secret with
  | none => Except.ok ()
  | some sec =>
    if sec = "" then Except.ok ()
    else if signature = some sec then Except.ok ()
    else Except.error (PyExc.httpException 401 "Unauthorized")

/-- Observable trace of one inbound webhook call. -/
structure WebhookTrace where
  result : Except PyExc String
  auth_calls : Nat
  upstream_requests : Nat

/-- The `from_odoo` handler (main.py:432-471): `verify_webhook_secret(req)` is
its first statement; only if that passes does the body run (payload parsing
and dispatch to `create_order`/`update_order`, main.py:437-471), here
abstracted as `process` because the claims about this handler concern only
the order of verification relative to the body. -/
def from_odoo (webhook_secret : Option String) (signature : Option String)
    (process : Unit → WebhookTrace) : WebhookTrace :=
  match verify_webhook_secret webhook_secret signature with
  | Except.error e => { result := Except.error e, auth_calls := 0, upstream_requests := 0 }
  | Except.ok _ => process ()

/-- Response body of the `/health` endpoint. -/
structure HealthReport where
  status : String
  toptex_api : String
deriving Repr, DecidableEq

/-- The `health_check` handler (main.py:495-513): obtain headers (which may
authenticate), issue the probe WITHOUT `raise_for_status`, and report
`healthy`/`connected` on status 200, `healthy`/`disconnected` on any other
status; the bare `except:` turns ANY exception — including the
`HTTPException(503)` from a failed token acquisition — into a
`degraded`/`disconnected` report. -/
def health_check (s : AuthState) (now : Nat) (aresp : AuthResponse) (out : CallOutcome) :
    HealthReport × AuthState :=
  let g := get_token s now aresp
  match g.1 with
  | Except.error _ => ({ status := "degraded", toptex_api := "disconnected" }, g.2.1)
  | Except.ok _ =>
    match out with
    | CallOutcome.transportError _ =>
        ({ status := "degraded", toptex_api := "disconnected" }, g.2.1)
    | CallOutcome.httpStatus code _ =>
        ({ status := "healthy",
           toptex_api := if code = 200 then "connected" else "disconnected" }, g.2.1)

/-! Invariant vocabulary for the credential, and the reachable-state step
relation generated by calling `get_token` on the shared manager at arbitrary
times against arbitrary authentication-endpoint behaviour. -/

/-- Both credential fields present, or both absent. -/
def credential_paired (s : AuthState) : Prop :=
  (s.token.isSome ∧ s.token_expiry.isSome) ∨ (s.token = none ∧ s.token_expiry = none)

/-- Whether a successful authentication response actually carries a token
field, as the upstream contract promises (`{"token": string}` on success);
failures carry no token and satisfy this trivially. -/
def response_has_token : AuthResponse → Bool
  | AuthResponse.success tok => tok.isSome
  | AuthResponse.failure _ => true

/-- One interaction with the shared `auth_manager`: a `get_token` call at some
time with some authentication-endpoint behaviour (this subsumes direct
`authenticate` calls, which in `main.py` happen only inside `get_token`). -/
def auth_step (s : AuthState) (ev : Nat × AuthResponse) : AuthState :=
  (get_token s ev.1 ev.2).2.1

/-- The manager state reached from process start after a sequence of
interactions. -/
def run_auth (evs : List (Nat × AuthResponse)) : AuthState :=
  evs.foldl auth_step initial_auth_state

theorem auth_step_preserves (s : AuthState) (ev : Nat × AuthResponse)
    (hs : credential_paired s) (hev : response_has_token ev.2 = true) :
    credential_paired (auth_step s ev) := by
  by_cases hv : is_token_valid s ev.1
  · simpa [auth_step, get_token, hv] using hs
  · cases hav : ev.2 with
    | failure d => simpa [auth_step, get_token, hv, authenticate, hav] using hs
    | success tok =>
      have htok : tok.isSome = true := by simpa [response_has_token, hav] using hev
      simp [auth_step, get_token, hv, authenticate, hav, credential_paired, htok]

theorem run_auth_paired_aux (evs : List (Nat × AuthResponse)) :
    ∀ s, credential_paired s → (∀ ev ∈ evs, response_has_token ev.2 = true) →
      credential_paired (evs.foldl auth_step s) := by
  induction evs with
  | nil => intro s hs _; simpa using hs
  | cons e rest ih =>
    intro s hs h
    simpa using ih (auth_step s e) (auth_step_preserves s e hs (h e (by simp)))
      (fun ev hev => h ev (by simp [hev]))

/-- Unfolding of a served `GET /products` call: the retry wrapper resolves on
its first attempt (calling an async function cannot raise), so the handler
body runs exactly once, at attempt index 0, with no sleeps. -/
theorem callGetProducts_unfold (s : AuthState) (now : Nat) (aresp : Nat → AuthResponse)
    (out : Nat → CallOutcome) :
    callGetProducts s now aresp out =
      (let b := get_products_body s now (aresp 0) (out 0)
       ({ result := b.1, auth_calls := b.2.2.1, upstream_requests := b.2.2.2, sleeps := [] },
        b.2.1)) := rfl

/-- The decorator applied to a plain (synchronous) callable that raises
`RequestException` on every attempt does perform `max_retries = 3` attempts
with sleeps of `1 * 2 ^ 0 = 1` and `1 * 2 ^ 1 = 2` seconds, as its docstring
promises; the served endpoints never reach this behaviour. -/
theorem retry_with_backoff_sync_schedule :
    retry_with_backoff 3 1
        (fun _ => (Except.error (PyExc.requestException "boom") : Except PyExc Nat)) =
      (some (Except.error (PyExc.requestException "boom")), 3, [1, 2]) := rfl

/-- C1: evaluating the served `GET /products` call where the upstream request
raises a transient `RequestException` on every attempt (cached token valid):
the code performs exactly ONE upstream attempt, sleeps never, and raises
`HTTPException(503)` immediately — not the claimed three attempts with a
1s/2s backoff schedule. The handler converts the `RequestException` into an
`HTTPException` that the retry wrapper does not catch, and the wrapper only
ever sees the coroutine construction succeed. -/
theorem getProducts_transport_failure_single_attempt :
    (callGetProducts { token := some "tok", token_expiry := some 1000 } 0
        (fun _ => AuthResponse.failure "connection refused")
        (fun _ => CallOutcome.transportError "connection refused")).1 =
      { result := Except.error (PyExc.httpException 503 "TopTex API error: connection refused"),
        auth_calls := 0, upstream_requests := 1, sleeps := [] } := rfl

/-- C2: a served endpoint call whose token acquisition succeeds and whose
upstream response is a non-retryable client error (4xx) resolves to a
terminal `HTTPException(503)` after exactly one upstream attempt, with no
retries and no backoff sleep. -/
theorem getProducts_client_error_single_attempt (s : AuthState) (now : Nat)
    (ar : AuthResponse) (c : Nat) (body : String) (tk : Option String)
    (htok : (get_token s now ar).1 = Except.ok tk) (h4 : 400 ≤ c) (h5 : c < 500) :
    (callGetProducts s now (fun _ => ar) (fun _ => CallOutcome.httpStatus c body)).1 =
      { result := Except.error
          (PyExc.httpException 503 ("TopTex API error: status " ++ toString c)),
        auth_calls := (get_token s now ar).2.2, upstream_requests := 1, sleeps := [] } := by
  rw [callGetProducts_unfold]
  simp only [get_products_body, htok]
  rw [if_pos ⟨h4, by omega⟩]

/-- Witness for C2 at a concrete 404 with a valid cached token. -/
theorem getProducts_client_error_single_attempt_witness :
    (callGetProducts { token := some "t", token_expiry := some 10 } 0
        (fun _ => AuthResponse.failure "x") (fun _ => CallOutcome.httpStatus 404 "nf")).1 =
      { result := Except.error (PyExc.httpException 503 "TopTex API error: status 404"),
        auth_calls := 0, upstream_requests := 1, sleeps := [] } :=
  getProducts_client_error_single_attempt { token := some "t", token_expiry := some 10 } 0
    (AuthResponse.failure "x") 404 "nf" (some "t") rfl (by omega) (by omega)

/-- C3: `get_token` returns the cached token with zero authentication-endpoint
network calls whenever the credential is valid, delegates to `authenticate`
exactly when it is not, and any sequence of `get_token` calls made while the
credential stays valid performs zero authentication network calls and returns
the stored token each time, leaving the state untouched. -/
theorem get_token_cache_behavior (s : AuthState) (now : Nat) (ar : AuthResponse) :
    (is_token_valid s now = true → get_token s now ar = (Except.ok s.token, s, 0)) ∧
    (is_token_valid s now = false → get_token s now ar = authenticate s now ar) ∧
    (∀ calls : List (Nat × AuthResponse),
      (∀ c ∈ calls, is_token_valid s c.1 = true) →
      run_get_tokens s calls = (calls.map (fun _ => Except.ok s.token), s, 0)) := by
  refine ⟨fun h => by simp [get_token, h], fun h => by simp [get_token, h], ?_⟩
  intro calls
  induction calls with
  | nil => intro _; rfl
  | cons c rest ih =>
    intro h
    have hc : is_token_valid s c.1 = true := h c (by simp)
    have hrest := ih (fun x hx => h x (by simp [hx]))
    simp [run_get_tokens, get_token, hc, hrest]

/-- Witness for C3: two `get_token` calls against a live credential return the
cached token twice with zero authentication network calls. -/
theorem get_token_cache_behavior_witness :
    run_get_tokens { token := some "t", token_expiry := some 100 }
        [(1, AuthResponse.failure "net"), (2, AuthResponse.success none)] =
      ([Except.ok (some "t"), Except.ok (some "t")],
       { token := some "t", token_expiry := some 100 }, 0) := by
  have := (get_token_cache_behavior { token := some "t", token_expiry := some 100 } 0
      (AuthResponse.failure "net")).2.2
    [(1, AuthResponse.failure "net"), (2, AuthResponse.success none)] (by decide)
  simpa using this

/-- C4: `is_token_valid` is true exactly when both credential fields are
present and the current time is strictly before the stored expiry; being a
function of the state it mutates nothing. -/
theorem is_token_valid_iff (s : AuthState) (now : Nat) :
    is_token_valid s now = true ↔
      ∃ tk e, s.token = some tk ∧ s.token_expiry = some e ∧ now < e := by
  cases s with
  | mk tok exp => cases tok <;> cases exp <;> simp [is_token_valid]

/-- Witness for C4 at a concrete live credential. -/
theorem is_token_valid_iff_witness :
    is_token_valid { token := some "t", token_expiry := some 5 } 3 = true :=
  (is_token_valid_iff { token := some "t", token_expiry := some 5 } 3).2
    ⟨"t", 5, rfl, rfl, by omega⟩

/-- C5: a failing `authenticate` (network failure, timeout, or non-2xx) raises
`HTTPException(503)` — a service-unavailable class error — after exactly one
authentication network call, and returns the manager state exactly as it was,
whatever that state is. -/
theorem authenticate_failure_preserves_state (s : AuthState) (now : Nat) (d : String) :
    authenticate s now (AuthResponse.failure d) =
      (Except.error (PyExc.httpException 503 ("Authentication failed: " ++ d)), s, 1) := rfl

/-- C6: a successful `authenticate` makes exactly one authentication network
call, stores the token parsed from the JSON response, sets the expiry to the
current time plus the fixed 24-hour window (hence strictly in the future),
and replaces any prior credential (the new state does not depend on the old
one). -/
theorem authenticate_success_stores_credential (s : AuthState) (now : Nat)
    (tok : Option String) :
    authenticate s now (AuthResponse.success tok) =
      (Except.ok tok, { token := tok, token_expiry := some (now + 86400) }, 1) ∧
    now < now + 86400 :=
  ⟨rfl, by omega⟩

/-- C7: from process start, after any sequence of `get_token` interactions in
which every successful authentication response carries a token field (the
assumed upstream contract), the credential fields are present together or
absent together — never one without the other. -/
theorem credential_paired_invariant (evs : List (Nat × AuthResponse))
    (h : ∀ ev ∈ evs, response_has_token ev.2 = true) :
    credential_paired (run_auth evs) :=
  run_auth_paired_aux evs initial_auth_state (Or.inr ⟨rfl, rfl⟩) h

/-- Witness for C7: a concrete run with one successful and one failing
authentication. -/
theorem credential_paired_invariant_witness :
    credential_paired
      (run_auth [(0, AuthResponse.success (some "t")), (5, AuthResponse.failure "x")]) :=
  credential_paired_invariant
    [(0, AuthResponse.success (some "t")), (5, AuthResponse.failure "x")] (by decide)

/-- C8 counterexample: token acquisition fails on the first attempt while
every later attempt would have authenticated and the upstream would have
answered 200 — yet the served call terminates at once with the
`HTTPException(503)` from `authenticate`: zero upstream requests, zero
sleeps, no retry. The auth failure is an `HTTPException`, which the retry
wrapper does not catch, so it is NOT treated like a transient transport
failure and does not consume the retry budget. -/
theorem auth_failure_not_retried_cex :
    (callGetProducts initial_auth_state 0
        (fun a => if a = 0 then AuthResponse.failure "auth endpoint down"
                  else AuthResponse.success (some "t"))
        (fun _ => CallOutcome.httpStatus 200 "[]")).1 =
      { result := Except.error
          (PyExc.httpException 503 "Authentication failed: auth endpoint down"),
        auth_calls := 1, upstream_requests := 0, sleeps := [] } := rfl

/-- C8 amended: when token acquisition for the first (and only executed)
attempt fails, the served call aborts immediately with that
`HTTPException(503)`: it is not retried, performs no backoff sleep, and
issues no upstream request. -/
theorem auth_failure_terminal (s : AuthState) (now : Nat) (aresp : Nat → AuthResponse)
    (out : Nat → CallOutcome) (d : String)
    (h : (get_token s now (aresp 0)).1 = Except.error (PyExc.httpException 503 d)) :
    (callGetProducts s now aresp out).1.result = Except.error (PyExc.httpException 503 d) ∧
    (callGetProducts s now aresp out).1.upstream_requests = 0 ∧
    (callGetProducts s now aresp out).1.sleeps = [] := by
  rw [callGetProducts_unfold]
  simp [get_products_body, h]

/-- Witness for C8's amended claim at a concrete failing authentication. -/
theorem auth_failure_terminal_witness :
    (callGetProducts initial_auth_state 0 (fun _ => AuthResponse.failure "down")
        (fun _ => CallOutcome.httpStatus 200 "[]")).1.result =
      Except.error (PyExc.httpException 503 "Authentication failed: down") ∧
    (callGetProducts initial_auth_state 0 (fun _ => AuthResponse.failure "down")
        (fun _ => CallOutcome.httpStatus 200 "[]")).1.upstream_requests = 0 ∧
    (callGetProducts initial_auth_state 0 (fun _ => AuthResponse.failure "down")
        (fun _ => CallOutcome.httpStatus 200 "[]")).1.sleeps = [] :=
  auth_failure_terminal initial_auth_state 0 (fun _ => AuthResponse.failure "down")
    (fun _ => CallOutcome.httpStatus 200 "[]") "Authentication failed: down" rfl

/-- C9: when the webhook secret is configured (set and non-empty) and the
inbound request's `x-odoo-signature` header does not match it, `from_odoo`
answers `HTTPException(401)` with zero authentication network calls and zero
upstream requests, whatever processing the body would have done. -/
theorem webhook_mismatch_rejected_first (sec : String) (sig : Option String)
    (process : Unit → WebhookTrace) (hne : sec ≠ "") (hmis : sig ≠ some sec) :
    from_odoo (some sec) sig process =
      { result := Except.error (PyExc.httpException 401 "Unauthorized"),
        auth_calls := 0, upstream_requests := 0 } := by
  simp [from_odoo, verify_webhook_secret, hne, hmis]

/-- Witness for C9: a missing signature header against a configured secret is
rejected even when the body would have made calls. -/
theorem webhook_mismatch_rejected_first_witness :
    from_odoo (some "s3cret") none
        (fun _ => { result := Except.ok "ok", auth_calls := 3, upstream_requests := 4 }) =
      { result := Except.error (PyExc.httpException 401 "Unauthorized"),
        auth_calls := 0, upstream_requests := 0 } :=
  webhook_mismatch_rejected_first "s3cret" none
    (fun _ => { result := Except.ok "ok", auth_calls := 3, upstream_requests := 4 })
    (by decide) (by decide)

/-- C10: the health check is total — for every token-acquisition outcome and
every probe outcome (transport error, 200, or any other status) it returns a
report whose status is `healthy` or `degraded`, never propagating an
exception. -/
theorem health_check_total (s : AuthState) (now : Nat) (ar : AuthResponse)
    (out : CallOutcome) :
    (health_check s now ar out).1.status = "healthy" ∨
    (health_check s now ar out).1.status = "degraded" := by
  cases h : (get_token s now ar).1 with
  | error e => simp [health_check, h]
  | ok tk => cases out <;> simp [health_check, h]

end Toptex
